import Mathlib

/-
Verification of the win-term console-size utility.

The program consults three pieces of live OS state: the standard output
handle returned by GetStdHandle(STD_OUTPUT_HANDLE) (which may be null),
the result of GetConsoleScreenBufferInfo (which may fail, and on success
reports a cell grid dwSize whose X and Y coordinates are 16-bit signed
integers), and the DPI returned by GetDpiForWindow(GetConsoleWindow())
(a 32-bit unsigned integer).  We embed that state as an explicit record
and the two library functions and the entry point as pure functions of
it.  Rust i32 arithmetic is modelled on Int with explicit wraparound
modulo 2^32.
-/

namespace WinTerm

/-- Terminal size in pixels; fields are Rust i32 values. -/
structure TerminalSize where
  width : Int
  height : Int
deriving DecidableEq, Repr

/-- Per-character font size in pixels; fields are Rust i32 values. -/
structure FontSize where
  width : Int
  height : Int
deriving DecidableEq, Repr

/-- Errors of the library, from the TerminalError enum in lib.rs. -/
inductive TerminalError where
  | noStdHandle
  | noScreenBufferInfo
  | unsupportedDpi
deriving DecidableEq, Repr

/-- The OS state a run of the program observes: whether the standard
output handle is null, whether the screen-buffer-info query succeeds,
the reported cell grid (dwSize.X and dwSize.Y, 16-bit signed on the
real OS), and the DPI reported for the console window. -/
structure OsState where
  handleNull : Bool
  bufferOk : Bool
  dwSizeX : Int
  dwSizeY : Int
  dpi : Nat
deriving DecidableEq, Repr

/-- Wraparound of an integer into the 32-bit signed range, the semantics
of Rust release-mode i32 multiplication used in the size computations. -/
def wrap32 (x : Int) : Int := (x + 2147483648) % 4294967296 - 2147483648

/-- Embedding of get_size_of_the_font from lib.rs: null-handle check,
then a match on the DPI with the hardcoded table 96 ↦ (9,20),
120 ↦ (12,25), 144 ↦ (14,32), else UnsupportedDpi. -/
def get_size_of_the_font (s : OsState) : Except TerminalError FontSize :=
  if s.handleNull then .error .noStdHandle
  else
    match s.dpi with
    | 96 => .ok ⟨9, 20⟩
    | 120 => .ok ⟨12, 25⟩
    | 144 => .ok ⟨14, 32⟩
    | _ => .error .unsupportedDpi

/-- Embedding of get_size_of_the_terminal from lib.rs: null-handle
check, screen-buffer-info query, then a match on the DPI computing the
pixel size as (table width) * dwSize.X and (table height) * dwSize.Y in
i32 arithmetic, else UnsupportedDpi. -/
def get_size_of_the_terminal (s : OsState) : Except TerminalError TerminalSize :=
  if s.handleNull then .error .noStdHandle
  else if s.bufferOk = false then .error .noScreenBufferInfo
  else
    match s.dpi with
    | 96 => .ok ⟨wrap32 (9 * s.dwSizeX), wrap32 (20 * s.dwSizeY)⟩
    | 120 => .ok ⟨wrap32 (12 * s.dwSizeX), wrap32 (25 * s.dwSizeY)⟩
    | 144 => .ok ⟨wrap32 (14 * s.dwSizeX), wrap32 (32 * s.dwSizeY)⟩
    | _ => .error .unsupportedDpi

/-- The observable outcome of one run of the entry point: one line
printed to standard output, one diagnostic printed to standard error
followed by an early return, or a process abort (the unimplemented!
panic). -/
inductive MainOutcome where
  | stdout (line : String)
  | stderr (line : String)
  | panicked (msg : String)
deriving DecidableEq, Repr

/-- Embedding of main from main.rs: null-handle check printing
"error get_std_handle" to standard error, screen-buffer query printing
"error getting screen buffer info" to standard error on failure, then a
match on the DPI producing the pair (height, width) in i32 arithmetic
and printing "size: WIDTH x HEIGHT" (the pair's second component first);
the fall-through arm is unimplemented!, a panic, embedded here as the
none branch of the inner match. -/
def main (s : OsState) : MainOutcome :=
  if s.handleNull then .stderr "error get_std_handle"
  else if s.bufferOk = false then .stderr "error getting screen buffer info"
  else
    match (match s.dpi with
      | 96 => some (wrap32 (20 * s.dwSizeY), wrap32 (9 * s.dwSizeX))
      | 120 => some (wrap32 (25 * s.dwSizeY), wrap32 (12 * s.dwSizeX))
      | 144 => some (wrap32 (32 * s.dwSizeY), wrap32 (14 * s.dwSizeX))
      | _ => none) with
    | some pixel_size =>
        .stdout ("size: " ++ toString pixel_size.2 ++ " x " ++ toString pixel_size.1)
    | none => .panicked "This DPI shouldn't exist"

/-- wrap32 is the identity on integers already in the 32-bit signed range. -/
theorem wrap32_eq_self {z : Int} (h1 : -2147483648 ≤ z) (h2 : z < 2147483648) :
    wrap32 z = z := by
  unfold wrap32
  omega

/-- Bounds on the product of a table entry (0 ≤ c ≤ 32) and a 16-bit
signed cell count. -/
theorem table_mul_bounds {c z : Int} (hc0 : 0 ≤ c) (hc1 : c ≤ 32)
    (hz0 : -32768 ≤ z) (hz1 : z ≤ 32767) :
    -2147483648 ≤ c * z ∧ c * z < 2147483648 := by
  have h1 : c * z ≤ c * 32767 := mul_le_mul_of_nonneg_left hz1 hc0
  have h2 : c * 32767 ≤ 32 * 32767 := mul_le_mul_of_nonneg_right hc1 (by norm_num)
  have h3 : c * (-32768) ≤ c * z := mul_le_mul_of_nonneg_left (by omega) hc0
  have h4 : 32 * (-32768) ≤ c * (-32768) := by nlinarith
  constructor <;> omega

/-- The size multiplications of the program never wrap for 16-bit cell
counts and table entries. -/
theorem wrap32_table_mul (c z : Int) (hc0 : 0 ≤ c) (hc1 : c ≤ 32)
    (hz0 : -32768 ≤ z) (hz1 : z ≤ 32767) :
    wrap32 (c * z) = c * z := by
  obtain ⟨hl, hr⟩ := table_mul_bounds hc0 hc1 hz0 hz1
  exact wrap32_eq_self hl hr

/-- C1: with a non-null standard output handle, get_size_of_the_font
maps DPI 96 to Ok (9,20), DPI 120 to Ok (12,25), DPI 144 to Ok (14,32),
and every other DPI value to Err UnsupportedDpi. -/
theorem font_dpi_table (s : OsState) (h : s.handleNull = false) :
    (s.dpi = 96 → get_size_of_the_font s = .ok ⟨9, 20⟩) ∧
    (s.dpi = 120 → get_size_of_the_font s = .ok ⟨12, 25⟩) ∧
    (s.dpi = 144 → get_size_of_the_font s = .ok ⟨14, 32⟩) ∧
    (s.dpi ≠ 96 → s.dpi ≠ 120 → s.dpi ≠ 144 →
      get_size_of_the_font s = .error .unsupportedDpi) := by
  refine ⟨fun hd => ?_, fun hd => ?_, fun hd => ?_, fun h1 h2 h3 => ?_⟩
  · simp [get_size_of_the_font, h, hd]
  · simp [get_size_of_the_font, h, hd]
  · simp [get_size_of_the_font, h, hd]
  · simp only [get_size_of_the_font, h, Bool.false_eq_true, if_false]

/-- C1 witness: the table evaluated at a concrete state with DPI 96. -/
theorem font_dpi_table_witness :
    get_size_of_the_font ⟨false, true, 80, 25, 96⟩ = .ok ⟨9, 20⟩ :=
  (font_dpi_table ⟨false, true, 80, 25, 96⟩ rfl).1 rfl

/-- C5: with a null standard output handle both resolvers return
Err NoStdHandle, whatever the screen-buffer and DPI parts of the state
are; since the conclusion is the same constant for every such state,
the result does not depend on those parts. -/
theorem null_handle_no_std_handle (s : OsState) (h : s.handleNull = true) :
    get_size_of_the_font s = .error .noStdHandle ∧
    get_size_of_the_terminal s = .error .noStdHandle := by
  constructor <;> simp [get_size_of_the_font, get_size_of_the_terminal, h]

/-- C5 witness: a concrete null-handle state. -/
theorem null_handle_no_std_handle_witness :
    get_size_of_the_font ⟨true, true, 80, 25, 96⟩ = .error .noStdHandle ∧
    get_size_of_the_terminal ⟨true, true, 80, 25, 96⟩ = .error .noStdHandle :=
  null_handle_no_std_handle ⟨true, true, 80, 25, 96⟩ rfl

/-- C6: get_size_of_the_terminal returns Err NoScreenBufferInfo exactly
when the handle is non-null and the screen-buffer-info query fails. -/
theorem no_screen_buffer_info_iff (s : OsState) :
    get_size_of_the_terminal s = .error .noScreenBufferInfo ↔
      s.handleNull = false ∧ s.bufferOk = false := by
  unfold get_size_of_the_terminal
  rcases h1 : s.handleNull <;> rcases h2 : s.bufferOk <;> simp
  split <;> simp

/-- C6 witness: a concrete state with a non-null handle and a failing
screen-buffer query. -/
theorem no_screen_buffer_info_iff_witness :
    get_size_of_the_terminal ⟨false, false, 80, 25, 96⟩ =
      .error .noScreenBufferInfo :=
  (no_screen_buffer_info_iff ⟨false, false, 80, 25, 96⟩).mpr ⟨rfl, rfl⟩

/-- C7: every error of get_size_of_the_font is UnsupportedDpi or
NoStdHandle; the font resolver never produces NoScreenBufferInfo. -/
theorem font_error_kinds (s : OsState) (e : TerminalError)
    (h : get_size_of_the_font s = .error e) :
    e = .unsupportedDpi ∨ e = .noStdHandle := by
  unfold get_size_of_the_font at h
  rcases h1 : s.handleNull <;> rw [h1] at h
  · simp only [Bool.false_eq_true, if_false] at h
    split at h <;> simp_all
  · simp_all

/-- C7 witness: the theorem applied to the error of a concrete
null-handle run. -/
theorem font_error_kinds_witness :
    TerminalError.noStdHandle = .unsupportedDpi ∨
      TerminalError.noStdHandle = .noStdHandle :=
  font_error_kinds ⟨true, true, 80, 25, 96⟩ .noStdHandle rfl

/-- C10: the result of get_size_of_the_font depends only on the
nullness of the handle and the reported DPI: two states agreeing on
those, whatever their screen-buffer parts, give identical results. -/
theorem font_noninterference (s₁ s₂ : OsState)
    (hh : s₁.handleNull = s₂.handleNull) (hd : s₁.dpi = s₂.dpi) :
    get_size_of_the_font s₁ = get_size_of_the_font s₂ := by
  unfold get_size_of_the_font
  rw [hh, hd]

/-- C10 witness: two concrete states differing in buffer success and
cell grid but agreeing on handle nullness and DPI. -/
theorem font_noninterference_witness :
    get_size_of_the_font ⟨false, true, 80, 25, 96⟩ =
      get_size_of_the_font ⟨false, false, 1, 2, 96⟩ :=
  font_noninterference ⟨false, true, 80, 25, 96⟩ ⟨false, false, 1, 2, 96⟩ rfl rfl

/-- C2: with a non-null handle, a successful screen-buffer query, and a
supported DPI, get_size_of_the_terminal returns Ok of exactly the cell
grid multiplied componentwise by the FontSize that get_size_of_the_font
returns at the same DPI (the i32 products do not wrap for 16-bit cell
counts). -/
theorem terminal_is_cells_times_font (s : OsState)
    (hh : s.handleNull = false) (hb : s.bufferOk = true)
    (hd : s.dpi = 96 ∨ s.dpi = 120 ∨ s.dpi = 144)
    (hx0 : -32768 ≤ s.dwSizeX) (hx1 : s.dwSizeX ≤ 32767)
    (hy0 : -32768 ≤ s.dwSizeY) (hy1 : s.dwSizeY ≤ 32767) :
    ∃ f : FontSize, get_size_of_the_font s = .ok f ∧
      get_size_of_the_terminal s =
        .ok ⟨f.width * s.dwSizeX, f.height * s.dwSizeY⟩ := by
  rcases hd with hd | hd | hd
  · exact ⟨⟨9, 20⟩, by simp [get_size_of_the_font, hh, hd],
      by simp [get_size_of_the_terminal, hh, hb, hd,
        wrap32_table_mul 9 s.dwSizeX (by norm_num) (by norm_num) hx0 hx1,
        wrap32_table_mul 20 s.dwSizeY (by norm_num) (by norm_num) hy0 hy1]⟩
  · exact ⟨⟨12, 25⟩, by simp [get_size_of_the_font, hh, hd],
      by simp [get_size_of_the_terminal, hh, hb, hd,
        wrap32_table_mul 12 s.dwSizeX (by norm_num) (by norm_num) hx0 hx1,
        wrap32_table_mul 25 s.dwSizeY (by norm_num) (by norm_num) hy0 hy1]⟩
  · exact ⟨⟨14, 32⟩, by simp [get_size_of_the_font, hh, hd],
      by simp [get_size_of_the_terminal, hh, hb, hd,
        wrap32_table_mul 14 s.dwSizeX (by norm_num) (by norm_num) hx0 hx1,
        wrap32_table_mul 32 s.dwSizeY (by norm_num) (by norm_num) hy0 hy1]⟩

/-- C2 witness: the relation evaluated at the 80 by 25 grid at DPI 96,
where the font is (9,20) and the terminal size the componentwise
product (720, 500). -/
theorem terminal_is_cells_times_font_witness :
    get_size_of_the_font ⟨false, true, 80, 25, 96⟩ = .ok ⟨9, 20⟩ ∧
    get_size_of_the_terminal ⟨false, true, 80, 25, 96⟩ = .ok ⟨720, 500⟩ := by
  obtain ⟨f, hf, ht⟩ := terminal_is_cells_times_font ⟨false, true, 80, 25, 96⟩
    rfl rfl (Or.inl rfl) (by norm_num) (by norm_num) (by norm_num) (by norm_num)
  have hfe : Except.ok f = (Except.ok ⟨9, 20⟩ : Except TerminalError FontSize) :=
    hf.symm.trans rfl
  injection hfe with hfe2
  subst hfe2
  exact ⟨hf, ht⟩

/-- C4: the spec's two worked examples: an 80 by 25 grid at DPI 96
gives TerminalSize (720, 500), and a 120 by 30 grid at DPI 120 gives
TerminalSize (1440, 750). -/
theorem terminal_examples :
    get_size_of_the_terminal ⟨false, true, 80, 25, 96⟩ = .ok ⟨720, 500⟩ ∧
    get_size_of_the_terminal ⟨false, true, 120, 30, 120⟩ = .ok ⟨1440, 750⟩ :=
  ⟨rfl, rfl⟩

/-- C3: when the handle is non-null, the buffer query succeeds, and the
DPI is supported, main prints exactly the line "size: W x H" to
standard output, where W and H are the width and height, in that order,
of the TerminalSize that get_size_of_the_terminal computes on the same
state. -/
theorem main_refines_terminal (s : OsState)
    (hh : s.handleNull = false) (hb : s.bufferOk = true)
    (hd : s.dpi = 96 ∨ s.dpi = 120 ∨ s.dpi = 144) :
    ∃ t : TerminalSize, get_size_of_the_terminal s = .ok t ∧
      main s = .stdout ("size: " ++ toString t.width ++ " x " ++ toString t.height) := by
  rcases hd with hd | hd | hd
  · exact ⟨⟨wrap32 (9 * s.dwSizeX), wrap32 (20 * s.dwSizeY)⟩,
      by simp [get_size_of_the_terminal, hh, hb, hd],
      by simp [main, hh, hb, hd]⟩
  · exact ⟨⟨wrap32 (12 * s.dwSizeX), wrap32 (25 * s.dwSizeY)⟩,
      by simp [get_size_of_the_terminal, hh, hb, hd],
      by simp [main, hh, hb, hd]⟩
  · exact ⟨⟨wrap32 (14 * s.dwSizeX), wrap32 (32 * s.dwSizeY)⟩,
      by simp [get_size_of_the_terminal, hh, hb, hd],
      by simp [main, hh, hb, hd]⟩

/-- C3 witness: on the 80 by 25 grid at DPI 96 the entry point prints
the line built from the library's result, which is size: 720 x 500. -/
theorem main_refines_terminal_witness :
    main ⟨false, true, 80, 25, 96⟩ = .stdout "size: 720 x 500" := by
  obtain ⟨t, ht, hm⟩ := main_refines_terminal ⟨false, true, 80, 25, 96⟩
    rfl rfl (Or.inl rfl)
  have hte : Except.ok t =
      (Except.ok ⟨720, 500⟩ : Except TerminalError TerminalSize) :=
    ht.symm.trans rfl
  injection hte with hte2
  subst hte2
  exact hm

/-- C8: the entry point prints "error get_std_handle" to standard error
and returns early on a null handle; prints "error getting screen buffer
info" to standard error and returns early on a failed buffer query; and
panics, instead of reporting an error, on a non-null handle, successful
buffer query, and unsupported DPI. -/
theorem main_error_paths (s : OsState) :
    (s.handleNull = true → main s = .stderr "error get_std_handle") ∧
    (s.handleNull = false → s.bufferOk = false →
      main s = .stderr "error getting screen buffer info") ∧
    (s.handleNull = false → s.bufferOk = true →
      s.dpi ≠ 96 → s.dpi ≠ 120 → s.dpi ≠ 144 →
      main s = .panicked "This DPI shouldn't exist") := by
  refine ⟨fun h1 => ?_, fun h1 h2 => ?_, fun h1 h2 h3 h4 h5 => ?_⟩
  · simp [main, h1]
  · simp [main, h1, h2]
  · simp only [main, h1, h2, Bool.false_eq_true, if_false]
    split
    · simp_all
    · rfl

/-- C8 witness: the abort path at a concrete unsupported DPI of 72. -/
theorem main_error_paths_witness :
    main ⟨false, true, 80, 25, 72⟩ = .panicked "This DPI shouldn't exist" :=
  (main_error_paths ⟨false, true, 80, 25, 72⟩).2.2 rfl rfl
    (by decide) (by decide) (by decide)

/-- C9: for every cell grid the OS can report (each coordinate a 16-bit
signed integer) and every supported DPI, the pixel-size products are
exact in 32-bit signed arithmetic, both in get_size_of_the_terminal and
in the entry point: the TerminalSize computed with wrapping i32
multiplication equals the mathematical product of the FontSize entry
(at most 32) and the cell count, both components lie strictly inside
the i32 range, and main prints those same unwrapped mathematical
products. -/
theorem terminal_mul_no_overflow (s : OsState)
    (hh : s.handleNull = false) (hb : s.bufferOk = true)
    (hd : s.dpi = 96 ∨ s.dpi = 120 ∨ s.dpi = 144)
    (hx0 : -32768 ≤ s.dwSizeX) (hx1 : s.dwSizeX ≤ 32767)
    (hy0 : -32768 ≤ s.dwSizeY) (hy1 : s.dwSizeY ≤ 32767) :
    ∃ t : TerminalSize, ∃ f : FontSize,
      get_size_of_the_terminal s = .ok t ∧ get_size_of_the_font s = .ok f ∧
      f.width ≤ 32 ∧ f.height ≤ 32 ∧
      t.width = f.width * s.dwSizeX ∧ t.height = f.height * s.dwSizeY ∧
      -2147483648 ≤ t.width ∧ t.width < 2147483648 ∧
      -2147483648 ≤ t.height ∧ t.height < 2147483648 ∧
      main s = .stdout ("size: " ++ toString (f.width * s.dwSizeX) ++ " x " ++
        toString (f.height * s.dwSizeY)) := by
  rcases hd with hd | hd | hd
  · refine ⟨⟨9 * s.dwSizeX, 20 * s.dwSizeY⟩, ⟨9, 20⟩,
      by simp [get_size_of_the_terminal, hh, hb, hd,
        wrap32_table_mul 9 s.dwSizeX (by norm_num) (by norm_num) hx0 hx1,
        wrap32_table_mul 20 s.dwSizeY (by norm_num) (by norm_num) hy0 hy1],
      by simp [get_size_of_the_font, hh, hd], by norm_num, by norm_num,
      rfl, rfl, ?_, ?_, ?_, ?_, ?_⟩
    · exact (table_mul_bounds (by norm_num) (by norm_num) hx0 hx1).1
    · exact (table_mul_bounds (by norm_num) (by norm_num) hx0 hx1).2
    · exact (table_mul_bounds (by norm_num) (by norm_num) hy0 hy1).1
    · exact (table_mul_bounds (by norm_num) (by norm_num) hy0 hy1).2
    · simp [main, hh, hb, hd,
        wrap32_table_mul 9 s.dwSizeX (by norm_num) (by norm_num) hx0 hx1,
        wrap32_table_mul 20 s.dwSizeY (by norm_num) (by norm_num) hy0 hy1]
  · refine ⟨⟨12 * s.dwSizeX, 25 * s.dwSizeY⟩, ⟨12, 25⟩,
      by simp [get_size_of_the_terminal, hh, hb, hd,
        wrap32_table_mul 12 s.dwSizeX (by norm_num) (by norm_num) hx0 hx1,
        wrap32_table_mul 25 s.dwSizeY (by norm_num) (by norm_num) hy0 hy1],
      by simp [get_size_of_the_font, hh, hd], by norm_num, by norm_num,
      rfl, rfl, ?_, ?_, ?_, ?_, ?_⟩
    · exact (table_mul_bounds (by norm_num) (by norm_num) hx0 hx1).1
    · exact (table_mul_bounds (by norm_num) (by norm_num) hx0 hx1).2
    · exact (table_mul_bounds (by norm_num) (by norm_num) hy0 hy1).1
    · exact (table_mul_bounds (by norm_num) (by norm_num) hy0 hy1).2
    · simp [main, hh, hb, hd,
        wrap32_table_mul 12 s.dwSizeX (by norm_num) (by norm_num) hx0 hx1,
        wrap32_table_mul 25 s.dwSizeY (by norm_num) (by norm_num) hy0 hy1]
  · refine ⟨⟨14 * s.dwSizeX, 32 * s.dwSizeY⟩, ⟨14, 32⟩,
      by simp [get_size_of_the_terminal, hh, hb, hd,
        wrap32_table_mul 14 s.dwSizeX (by norm_num) (by norm_num) hx0 hx1,
        wrap32_table_mul 32 s.dwSizeY (by norm_num) (by norm_num) hy0 hy1],
      by simp [get_size_of_the_font, hh, hd], by norm_num, by norm_num,
      rfl, rfl, ?_, ?_, ?_, ?_, ?_⟩
    · exact (table_mul_bounds (by norm_num) (by norm_num) hx0 hx1).1
    · exact (table_mul_bounds (by norm_num) (by norm_num) hx0 hx1).2
    · exact (table_mul_bounds (by norm_num) (by norm_num) hy0 hy1).1
    · exact (table_mul_bounds (by norm_num) (by norm_num) hy0 hy1).2
    · simp [main, hh, hb, hd,
        wrap32_table_mul 14 s.dwSizeX (by norm_num) (by norm_num) hx0 hx1,
        wrap32_table_mul 32 s.dwSizeY (by norm_num) (by norm_num) hy0 hy1]

/-- C9 witness: exactness at the extreme admissible grid 32767 by
-32768 at DPI 144: the products 14 * 32767 = 458738 and
32 * (-32768) = -1048576 are computed without wrapping and lie in the
i32 range, both by the library resolver and by the entry point's
printed line. -/
theorem terminal_mul_no_overflow_witness :
    get_size_of_the_terminal ⟨false, true, 32767, -32768, 144⟩ =
      .ok ⟨458738, -1048576⟩ ∧
    main ⟨false, true, 32767, -32768, 144⟩ =
      .stdout "size: 458738 x -1048576" ∧
    -2147483648 ≤ (458738 : Int) ∧ (458738 : Int) < 2147483648 ∧
    -2147483648 ≤ (-1048576 : Int) ∧ (-1048576 : Int) < 2147483648 := by
  obtain ⟨t, f, ht, hf, hw32, hh32, htw, hth, hb1, hb2, hb3, hb4, hm⟩ :=
    terminal_mul_no_overflow ⟨false, true, 32767, -32768, 144⟩ rfl rfl
      (Or.inr (Or.inr rfl)) (by norm_num) (by norm_num) (by norm_num) (by norm_num)
  have hfe : Except.ok f = (Except.ok ⟨14, 32⟩ : Except TerminalError FontSize) :=
    hf.symm.trans rfl
  injection hfe with hfe2
  subst hfe2
  have hte : Except.ok t =
      (Except.ok ⟨458738, -1048576⟩ : Except TerminalError TerminalSize) :=
    ht.symm.trans rfl
  injection hte with hte2
  subst hte2
  exact ⟨ht, hm, hb1, hb2, hb3, hb4⟩

end WinTerm
